import Mathlib

/-!
Verification of the digital-human orchestration server core against its
specification.  The Python sources are shallowly embedded: pure control flow
becomes Lean functions, the mutable result dictionary becomes a record that is
threaded explicitly, Python exceptions become the error side of `Except`, and
external engine calls (network-bound ASR/LLM/TTS providers) become function
parameters so that theorems quantify over every possible provider behaviour.
-/

namespace DigitalHuman

/-! ## Message protocol (`utils/protocol.py`)

The conversation pipeline reads a `.text` attribute from the messages the
engines hand back, so engine output messages are embedded as records with an
optional `text` payload (`None` meaning "not produced").  Audio messages carry
their raw byte payload; the byte values are embedded as natural numbers. -/

structure TextMessage where
  text : Option String
deriving DecidableEq, Repr

structure AudioMessage where
  data : List Nat
deriving DecidableEq, Repr

/-- Python string truthiness for an `Optional[str]` value: `None` and the
empty string are falsy, every other string is truthy. -/
def strTruthy : Option String → Bool
  | none => false
  | some s => !s.isEmpty

/-! ## Conversation pipeline (`pipelines/conversation.py`)

`ConversationPipeline.process` builds a result dictionary with the five keys
`asr_result`, `llm_result`, `agent_result`, `tts_result`, `error` (the last
initialised to `None`), runs the ASR, LLM-or-Agent and TTS stages inside one
`try` block, and on any exception stores an error message in the dictionary
and returns it.  The record `ProcessResult` is that dictionary; the engines
are embedded as optional functions (absent engine = `None` attribute) which
either return a value or raise (`Except.error` carries the `str(e)` of the
Python exception). -/

structure ProcessResult where
  asr_result : Option TextMessage
  llm_result : Option TextMessage
  agent_result : Option TextMessage
  tts_result : Option AudioMessage
  error : Option String
deriving DecidableEq, Repr

structure ConversationPipeline where
  asr_engine : Option (AudioMessage → Except String (Option TextMessage))
  llm_engine : Option (Option String → Except String (Option TextMessage))
  agent_engine : Option (Option String → Except String (Option TextMessage))
  tts_engine : Option (String → Except String (Option AudioMessage))
  use_agent : Bool

/-- Message text used when the pipeline catches a stage exception:
`f"对话流水线处理失败: {str(e)}"`. -/
def pipelineFailMsg : String := "对话流水线处理失败: "

/-- A Python exception in flight inside `process`: the partial result
dictionary at the raise point together with `str(e)`. -/
abbrev ProcRaise := ProcessResult × String

/-- Step 3 of `ConversationPipeline.process` (TTS).  Mirrors: skip flag,
`raise ValueError` when the TTS engine is absent, preference of the agent
result over the LLM result for `text_to_speak`, and synthesis only when
`text_to_speak` is truthy. -/
def ConversationPipeline.stage3 (p : ConversationPipeline) (r : ProcessResult)
    (skip_tts : Bool) : Except ProcRaise ProcessResult :=
  if skip_tts then .ok r
  else
    match p.tts_engine with
    | none => .error (r, "TTS引擎未初始化")
    | some tts =>
      let text_to_speak : Option String :=
        match r.agent_result with
        | some m => m.text
        | none =>
          match r.llm_result with
          | some m => m.text
          | none => none
      match text_to_speak with
      | none => .ok r
      | some t =>
        if t.isEmpty then .ok r
        else
          match tts t with
          | .error e => .error (r, e)
          | .ok audio => .ok { r with tts_result := audio }

/-- Step 2 of `ConversationPipeline.process` (LLM or Agent).  Mirrors:
`if use_agent_mode and self.agent_engine: ... elif self.llm_engine: ...
else: raise ValueError(...)`, the early `return result` when the produced
text is falsy, and then step 3. -/
def ConversationPipeline.stage2 (p : ConversationPipeline) (r : ProcessResult)
    (asr_text : Option String) (use_agent_mode skip_llm skip_tts : Bool) :
    Except ProcRaise ProcessResult :=
  if skip_llm then p.stage3 r skip_tts
  else
    match use_agent_mode, p.agent_engine with
    | true, some agent =>
      match agent asr_text with
      | .error e => .error (r, e)
      | .ok resp =>
        let r := { r with agent_result := resp }
        let llm_text := resp.bind TextMessage.text
        if strTruthy llm_text then p.stage3 r skip_tts else .ok r
    | _, _ =>
      match p.llm_engine with
      | none => .error (r, "LLM引擎和Agent引擎均未初始化")
      | some llm =>
        match llm asr_text with
        | .error e => .error (r, e)
        | .ok resp =>
          let r := { r with llm_result := resp }
          let llm_text := resp.bind TextMessage.text
          if strTruthy llm_text then p.stage3 r skip_tts else .ok r

/-- The `try` block of `ConversationPipeline.process`: step 1 (ASR, with the
skip / direct-text shortcut and the early `return result` when ASR produced
no truthy text) followed by steps 2 and 3.  `Except.error` is a Python
exception escaping the block; its payload is the result dictionary as mutated
so far plus the exception message. -/
def ConversationPipeline.processBody (p : ConversationPipeline)
    (audio_input : AudioMessage) (skip_asr : Bool) (text_input : Option String)
    (skip_llm : Bool) (use_agent : Option Bool) (skip_tts : Bool) :
    Except ProcRaise ProcessResult :=
  let r0 : ProcessResult := ⟨none, none, none, none, none⟩
  let use_agent_mode := use_agent.getD p.use_agent
  if skip_asr || strTruthy text_input then
    let asr_text := text_input
    let r := { r0 with
      asr_result := if strTruthy asr_text then some ⟨asr_text⟩ else none }
    p.stage2 r asr_text use_agent_mode skip_llm skip_tts
  else
    match p.asr_engine with
    | none => .error (r0, "ASR引擎未初始化")
    | some asr =>
      match asr audio_input with
      | .error e => .error (r0, e)
      | .ok msg =>
        let r := { r0 with asr_result := msg }
        let asr_text := msg.bind TextMessage.text
        if strTruthy asr_text then
          p.stage2 r asr_text use_agent_mode skip_llm skip_tts
        else .ok r

/-- Function `ConversationPipeline.process`: the `try` body with the surrounding
`except Exception` handler that stores `f"对话流水线处理失败: {e}"` in the
result dictionary and returns it normally. -/
def ConversationPipeline.process (p : ConversationPipeline)
    (audio_input : AudioMessage) (skip_asr : Bool) (text_input : Option String)
    (skip_llm : Bool) (use_agent : Option Bool) (skip_tts : Bool) :
    ProcessResult :=
  match p.processBody audio_input skip_asr text_input skip_llm use_agent skip_tts with
  | .ok r => r
  | .error (r, e) => { r with error := some (pipelineFailMsg ++ e) }

theorem stage3_ok_error (p : ConversationPipeline) (r : ProcessResult)
    (skip_tts : Bool) (r2 : ProcessResult)
    (h : p.stage3 r skip_tts = Except.ok r2) : r2.error = r.error := by
  unfold ConversationPipeline.stage3 at h
  repeat' first
    | split at h
    | dsimp only at h
  all_goals first
    | (cases h; rfl)
    | cases h

theorem stage2_ok_error (p : ConversationPipeline) (r : ProcessResult)
    (asr_text : Option String) (u sl st : Bool) (r2 : ProcessResult)
    (h : p.stage2 r asr_text u sl st = Except.ok r2) : r2.error = r.error := by
  unfold ConversationPipeline.stage2 at h
  repeat' first
    | split at h
    | dsimp only at h
  all_goals first
    | (cases h; rfl)
    | cases h
    | (have h2 := stage3_ok_error _ _ _ _ h; exact h2)

theorem processBody_ok_error (p : ConversationPipeline) (a : AudioMessage)
    (sa : Bool) (ti : Option String) (sl : Bool) (ua : Option Bool) (st : Bool)
    (r : ProcessResult)
    (h : p.processBody a sa ti sl ua st = Except.ok r) : r.error = none := by
  unfold ConversationPipeline.processBody at h
  repeat' first
    | split at h
    | dsimp only at h
  all_goals first
    | (cases h; rfl)
    | cases h
    | (have h2 := stage2_ok_error _ _ _ _ _ _ _ h; exact h2)

/-- Claim C3: `ConversationPipeline.process` never propagates an exception.
For every pipeline (every possible engine behaviour, each allowed to raise
arbitrary exceptions) and every argument list, either the `try` body ran to
completion, `process` returns its result and the `error` field is still
unset, or the body raised some exception `e` at partial result `r`, and
`process` returns that very partial dictionary with `error` set to the
failure message built from `e` — in both cases returning normally. -/
theorem process_never_propagates (p : ConversationPipeline) (a : AudioMessage)
    (sa : Bool) (ti : Option String) (sl : Bool) (ua : Option Bool) (st : Bool) :
    (p.processBody a sa ti sl ua st = Except.ok (p.process a sa ti sl ua st)
       ∧ (p.process a sa ti sl ua st).error = none)
    ∨ (∃ r e, p.processBody a sa ti sl ua st = Except.error (r, e)
       ∧ p.process a sa ti sl ua st
           = { r with error := some (pipelineFailMsg ++ e) }) := by
  cases hb : p.processBody a sa ti sl ua st with
  | ok r =>
    left
    have he := processBody_ok_error p a sa ti sl ua st r hb
    constructor
    · simp [ConversationPipeline.process, hb]
    · simp [ConversationPipeline.process, hb, he]
  | error pe =>
    obtain ⟨r, e⟩ := pe
    right
    refine ⟨r, e, rfl, ?_⟩
    simp [ConversationPipeline.process, hb]

/-- Claim C2: when the ASR stage actually runs (`skip_asr` false and no
truthy `text_input`) and the ASR engine returns `None` or a message whose
text is `None` or empty, `process` returns the result dictionary holding
only the ASR outcome: `error` stays unset and no LLM, Agent or TTS output
is present — a normal partial outcome, not a failure. -/
theorem process_empty_asr_partial_outcome (p : ConversationPipeline)
    (audio : AudioMessage)
    (asr : AudioMessage → Except String (Option TextMessage))
    (msg : Option TextMessage) (text_input : Option String)
    (skip_llm : Bool) (use_agent : Option Bool) (skip_tts : Bool)
    (hasr : p.asr_engine = some asr)
    (hti : strTruthy text_input = false)
    (hrun : asr audio = Except.ok msg)
    (hempty : strTruthy (msg.bind TextMessage.text) = false) :
    p.process audio false text_input skip_llm use_agent skip_tts
      = { asr_result := msg, llm_result := none, agent_result := none,
          tts_result := none, error := none } := by
  unfold ConversationPipeline.process ConversationPipeline.processBody
  simp [hasr, hti, hrun, hempty]

/-- A pipeline whose ASR engine recognises nothing (always returns `None`),
with the other engines present and functional. -/
def silentPipeline : ConversationPipeline :=
  { asr_engine := some fun _ => .ok none
    llm_engine := some fun _ => .ok (some ⟨some "回复"⟩)
    agent_engine := none
    tts_engine := some fun _ => .ok (some ⟨[1]⟩)
    use_agent := false }

theorem process_empty_asr_partial_outcome_witness :
    silentPipeline.process ⟨[]⟩ false none false none false
      = { asr_result := none, llm_result := none, agent_result := none,
          tts_result := none, error := none } :=
  process_empty_asr_partial_outcome silentPipeline ⟨[]⟩ (fun _ => .ok none) none
    none false none false rfl rfl rfl rfl

/-! ## HTTP boundary (`api/routes.py`)

The `audio_chat` handler calls `pipeline.process`, then tests
`if "error" in result:` — a Python dictionary **membership** test — and
raises `HTTPException(status_code=500, detail=result["error"])` when the key
is present; otherwise it builds the 200 response from `result.get(...)`.
The surrounding `except Exception` turns any raised exception (including
that `HTTPException`) into an HTTP 500 response.  The embedding keeps the
result dictionary as the explicit key-value list `ProcessResult.toDict`, so
that the membership test is computed, not assumed. -/

inductive PipeDictVal where
  | textMsg (m : Option TextMessage)
  | audioMsg (m : Option AudioMessage)
  | errVal (e : Option String)
deriving DecidableEq, Repr

/-- The dictionary returned by `ConversationPipeline.process`, with the five
keys it always constructs, as the HTTP handler sees it. -/
def ProcessResult.toDict (r : ProcessResult) : List (String × PipeDictVal) :=
  [("asr_result", .textMsg r.asr_result),
   ("llm_result", .textMsg r.llm_result),
   ("agent_result", .textMsg r.agent_result),
   ("tts_result", .audioMsg r.tts_result),
   ("error", .errVal r.error)]

/-- Python `key in dict`. -/
def dictHasKey (d : List (String × PipeDictVal)) (k : String) : Bool :=
  d.any fun kv => kv.1 == k

/-- Python `dict.get(key)` (default `None`). -/
def dictFind (d : List (String × PipeDictVal)) (k : String) :
    Option PipeDictVal :=
  (d.find? fun kv => kv.1 == k).map Prod.snd

structure AudioChatResponse where
  input_text : Option String
  response_text : String
  audio_data : Option (List Nat)
  context_id : String
deriving DecidableEq, Repr

inductive HttpOutcome where
  | ok200 (resp : AudioChatResponse)
  | error500 (detail : Option String)
deriving DecidableEq, Repr

/-- The `audio_chat` handler from the point where `pipeline.process` has
returned `result` (request decoding already succeeded).  Mirrors
`if "error" in result: raise HTTPException(500, result["error"])` and then
the response construction from `result.get("input_text")`,
`result.get("response_text", "")` and `result.get("audio_output")` — keys
which `process` never emits, so the lookups yield their defaults.  The outer
`except Exception` maps the raised `HTTPException` to an HTTP 500 response
(its `str(e)` re-wrapping of the detail is not re-modelled; the embedding
keeps the original detail value). -/
def audio_chat_afterProcess (result : ProcessResult) (context_id : String) :
    HttpOutcome :=
  if dictHasKey result.toDict "error" then
    .error500 result.error
  else
    .ok200
      { input_text :=
          match dictFind result.toDict "input_text" with
          | some (.errVal e) => e
          | _ => none
        response_text :=
          match dictFind result.toDict "response_text" with
          | some (.errVal (some s)) => s
          | _ => ""
        audio_data :=
          match dictFind result.toDict "audio_output" with
          | some (.audioMsg (some a)) => some a.data
          | _ => none
        context_id := context_id }

/-- A pipeline whose ASR engine behaves like `DeepgramAPI.run` on the
Scenario B request: zero-length audio data yields `None` (no transcription),
non-empty audio yields a transcript. -/
def scenarioBPipeline : ConversationPipeline :=
  { asr_engine := some fun a =>
      .ok (if a.data.isEmpty then none else some ⟨some "你好"⟩)
    llm_engine := some fun _ => .ok (some ⟨some "回复"⟩)
    agent_engine := none
    tts_engine := some fun _ => .ok (some ⟨[0]⟩)
    use_agent := false }

/-- Claim C1 is refuted by the code: the handler tests `"error" in result`,
and the dictionary built by `process` always contains the key `error`
(initialised to `None`), so **every** completed pipeline invocation — in
particular the Scenario B one, whose result has `error = None` after ASR
legitimately produced nothing — makes the handler raise HTTP 500 instead of
returning the HTTP 200 partial result the claim and the spec require. -/
theorem audio_chat_partial_result_gets_500 :
    (∀ (r : ProcessResult) (cid : String),
        audio_chat_afterProcess r cid = HttpOutcome.error500 r.error)
    ∧ (scenarioBPipeline.process ⟨[]⟩ false none false none false).error = none
    ∧ audio_chat_afterProcess
        (scenarioBPipeline.process ⟨[]⟩ false none false none false) "ctx"
        = HttpOutcome.error500 none := by
  refine ⟨fun r cid => ?_, rfl, rfl⟩
  simp [audio_chat_afterProcess, dictHasKey, ProcessResult.toDict]

/-! ## Conversation contexts (`api/routes.py`, `APIService`)

`APIService.contexts` maps a context id to a dictionary with `messages`,
`created_at` and `last_access`.  `get_context` auto-creates a context when
the id is falsy or unknown (a falsy id is replaced by a fresh UUID, supplied
here as the explicit argument `fresh`), and bumps `last_access` otherwise;
`update_context` appends one message to the list returned by `get_context`.
Wall-clock reads of `time.time()` become the explicit argument `now`. -/

structure ChatMsg where
  role : String
  content : String
deriving DecidableEq, Repr

structure Ctx where
  messages : List ChatMsg
  created_at : Nat
  last_access : Nat
deriving DecidableEq, Repr

abbrev Contexts := List (String × Ctx)

/-- Dictionary lookup `self.contexts[id]` / membership test. -/
def lookupCtx : Contexts → String → Option Ctx
  | [], _ => none
  | (k, c) :: rest, id => if k = id then some c else lookupCtx rest id

/-- Dictionary assignment `self.contexts[id] = ctx` (adds the key when
absent, replaces the value when present). -/
def setCtx : Contexts → String → Ctx → Contexts
  | [], id, c => [(id, c)]
  | (k, v) :: rest, id, c =>
    if k = id then (id, c) :: rest else (k, v) :: setCtx rest id c

/-- Method `APIService.get_context`: returns the effective context id together with
the updated context table.  When `context_id` is falsy or unknown a fresh
context `{messages: [], created_at: now, last_access: now}` is stored (under
`context_id or str(uuid4())`); otherwise `last_access` is refreshed. -/
def get_context (cs : Contexts) (context_id : String) (now : Nat)
    (fresh : String) : String × Contexts :=
  if context_id.isEmpty || (lookupCtx cs context_id).isNone then
    let id := if context_id.isEmpty then fresh else context_id
    (id, setCtx cs id ⟨[], now, now⟩)
  else
    match lookupCtx cs context_id with
    | some c => (context_id, setCtx cs context_id { c with last_access := now })
    | none => (context_id, cs)

/-- Method `APIService.update_context`: `get_context` followed by
`context["messages"].append(message)` on the live dictionary it returned. -/
def update_context (cs : Contexts) (context_id : String) (message : ChatMsg)
    (now : Nat) (fresh : String) : Contexts :=
  let g := get_context cs context_id now fresh
  match lookupCtx g.2 g.1 with
  | some c => setCtx g.2 g.1 { c with messages := c.messages ++ [message] }
  | none => g.2

/-- A sequence of `update_context` calls on one id, in order. -/
def applyUpdates (cs : Contexts) (id : String) (msgs : List ChatMsg)
    (now : Nat) (fresh : String) : Contexts :=
  msgs.foldl (fun s m => update_context s id m now fresh) cs

theorem lookupCtx_setCtx_self (cs : Contexts) (id : String) (c : Ctx) :
    lookupCtx (setCtx cs id c) id = some c := by
  induction cs with
  | nil => simp [setCtx, lookupCtx]
  | cons kv rest ih =>
    obtain ⟨k, v⟩ := kv
    by_cases hk : k = id <;> simp [setCtx, lookupCtx, hk, ih]

theorem update_context_messages (cs : Contexts) (id : String) (m : ChatMsg)
    (now : Nat) (fresh : String) (c : Ctx)
    (hid : id.isEmpty = false) (hc : lookupCtx cs id = some c) :
    ∃ c2, lookupCtx (update_context cs id m now fresh) id = some c2
      ∧ c2.messages = c.messages ++ [m] := by
  unfold update_context get_context
  simp [hid, hc, lookupCtx_setCtx_self]

theorem applyUpdates_messages (id : String) (now : Nat) (fresh : String)
    (hid : id.isEmpty = false) (msgs : List ChatMsg) :
    ∀ (cs : Contexts) (c : Ctx), lookupCtx cs id = some c →
      ∃ c2, lookupCtx (applyUpdates cs id msgs now fresh) id = some c2
        ∧ c2.messages = c.messages ++ msgs := by
  induction msgs with
  | nil => exact fun cs c hc => ⟨c, by simpa [applyUpdates] using hc, by simp⟩
  | cons m rest ih =>
    intro cs c hc
    obtain ⟨c1, hc1, hm1⟩ := update_context_messages cs id m now fresh c hid hc
    obtain ⟨c2, hc2, hm2⟩ := ih (update_context cs id m now fresh) c1 hc1
    refine ⟨c2, ?_, ?_⟩
    · simpa [applyUpdates] using hc2
    · rw [hm2, hm1, List.append_assoc]
      rfl

/-- Claim C9: starting from a table in which the (truthy) id has no context
yet, any sequence of `update_context(id, m1) ... update_context(id, mn)`
calls leaves exactly `[m1, ..., mn]` in that order as the `messages` list of
the context that `get_context(id)` then returns — the history is append-only
with no reordering, rewriting or loss, and `get_context` removes nothing. -/
theorem context_monotonic_history (cs : Contexts) (id : String)
    (msgs : List ChatMsg) (now later : Nat) (fresh : String)
    (hid : id.isEmpty = false) (habs : lookupCtx cs id = none) :
    let cs2 := applyUpdates cs id msgs now fresh
    let g := get_context cs2 id later fresh
    g.1 = id ∧ (lookupCtx g.2 id).map Ctx.messages = some msgs := by
  intro cs2 g
  cases msgs with
  | nil =>
    constructor
    · simp [g, cs2, applyUpdates, get_context, hid, habs]
    · simp [g, cs2, applyUpdates, get_context, hid, habs, lookupCtx_setCtx_self]
  | cons m rest =>
    have h1 : lookupCtx (update_context cs id m now fresh) id
        = some ⟨[m], now, now⟩ := by
      unfold update_context get_context
      simp [hid, habs, lookupCtx_setCtx_self]
    obtain ⟨c2, hc2, hm2⟩ :=
      applyUpdates_messages id now fresh hid rest
        (update_context cs id m now fresh) ⟨[m], now, now⟩ h1
    have hc2n : lookupCtx cs2 id = some c2 := by
      simpa [cs2, applyUpdates] using hc2
    constructor
    · simp [g, get_context, hid, hc2n]
    · simp only [List.singleton_append] at hm2
      simp [g, get_context, hid, hc2n, lookupCtx_setCtx_self, hm2]

theorem context_monotonic_history_witness :
    let msgs : List ChatMsg := [⟨"user", "你好"⟩, ⟨"assistant", "回复"⟩]
    let cs2 := applyUpdates [] "ctx1" msgs 5 "uuid"
    let g := get_context cs2 "ctx1" 9 "uuid"
    g.1 = "ctx1" ∧ (lookupCtx g.2 "ctx1").map Ctx.messages = some msgs :=
  context_monotonic_history [] "ctx1" [⟨"user", "你好"⟩, ⟨"assistant", "回复"⟩]
    5 9 "uuid" rfl rfl

/-! ## Retry wrapper (`utils/audio_processor.py`)

`AudioProcessor.transcribe` and `AudioProcessor.synthesize` are decorated
with `@backoff.on_exception(backoff.expo, Exception, max_tries=3,
giveup=lambda e: isinstance(e, ValueError))`: the decorator re-invokes the
wrapped coroutine when it **raises**, up to 3 total attempts, except that a
`ValueError` is re-raised immediately.  Each method body, however, wraps its
entire logic in `try: ... except Exception: return None` (respectively
`return {"success": False, "error": str(e)}`), so no exception ever reaches
the decorator.  The per-attempt behaviour of the un-caught inner logic
(engine call plus result handling) is the oracle `inner`, indexed by the
attempt number. -/

inductive PyExc where
  | valueError (msg : String)
  | connectionError (msg : String)
  | otherError (msg : String)
deriving DecidableEq, Repr

/-- Python `str(e)`. -/
def PyExc.message : PyExc → String
  | .valueError m => m
  | .connectionError m => m
  | .otherError m => m

/-- Python `isinstance(e, ValueError)` — the `giveup` predicate of the decorator. -/
def PyExc.isValueError : PyExc → Bool
  | .valueError _ => true
  | _ => false

/-- One attempt of a wrapped coroutine: it returns a value or raises. -/
inductive Attempt (α : Type) where
  | ret (v : α)
  | raiseExc (e : PyExc)
deriving DecidableEq, Repr

/-- Decorator `backoff.on_exception(backoff.expo, Exception, max_tries, giveup)`:
run attempt `made`; on a normal return stop; on an exception stop and
re-raise when `giveup` holds or the attempt budget (`remaining` tries left)
is spent, otherwise sleep (irrelevant here) and try again.  Returns the
final outcome together with the number of attempts actually made. -/
def backoffOnException (giveup : PyExc → Bool) (f : Nat → Attempt α) :
    Nat → Nat → Attempt α × Nat
  | 0, made => (.raiseExc (.otherError "no tries"), made)
  | remaining + 1, made =>
    match f made with
    | .ret v => (.ret v, made + 1)
    | .raiseExc e =>
      if giveup e || remaining == 0 then (.raiseExc e, made + 1)
      else backoffOnException giveup f remaining (made + 1)

/-- The body of `AudioProcessor.transcribe`: everything inside the `try`
(engine lookup, engine `run` call, transcript extraction) is the oracle
`inner`; `except Exception as e: ...; return None` converts every raised
exception into a normal `None` return. -/
def transcribeBody (inner : Nat → Attempt (Option String)) (i : Nat) :
    Attempt (Option String) :=
  match inner i with
  | .ret v => .ret v
  | .raiseExc _ => .ret none

/-- Method `AudioProcessor.transcribe` as decorated: 3 tries, `ValueError` excluded
from retry.  Result plus number of attempts made. -/
def AudioProcessor.transcribe (inner : Nat → Attempt (Option String)) :
    Attempt (Option String) × Nat :=
  backoffOnException PyExc.isValueError (transcribeBody inner) 3 0

/-- Outcome dictionary of `AudioProcessor.synthesize`. -/
inductive SynthResult where
  | success (audio : List Nat) (format : String) (from_cache : Bool)
  | failure (error : String)
deriving DecidableEq, Repr

/-- The body of `AudioProcessor.synthesize`: the TTS provider call and
result handling are the oracle `inner`; `except Exception as e: return
{"success": False, "error": str(e)}` converts every raised exception into a
normal failure dictionary. -/
def synthesizeBody (inner : Nat → Attempt SynthResult) (i : Nat) :
    Attempt SynthResult :=
  match inner i with
  | .ret v => .ret v
  | .raiseExc e => .ret (.failure e.message)

/-- Method `AudioProcessor.synthesize` as decorated: 3 tries, `ValueError` excluded
from retry.  Result plus number of attempts made. -/
def AudioProcessor.synthesize (inner : Nat → Attempt SynthResult) :
    Attempt SynthResult × Nat :=
  backoffOnException PyExc.isValueError (synthesizeBody inner) 3 0

/-- Claim C4 is refuted by the code: because the method bodies catch every
exception themselves, the backoff decorator never observes a failure, so a
provider call raising a transient (non-ValueError) error is attempted
exactly once — never the up-to-3 times the claim requires — and no failure
surfaces: `transcribe` returns `None` and `synthesize` returns a
`success=False` dictionary after the single attempt.  The first two
conjuncts evaluate the wrappers at a provider that always raises
`ConnectionError("timeout")`; the last two state that every provider
behaviour whatsoever is attempted exactly once. -/
theorem transcribe_transient_error_not_retried :
    AudioProcessor.transcribe (fun _ => .raiseExc (.connectionError "timeout"))
      = (.ret none, 1)
    ∧ AudioProcessor.synthesize (fun _ => .raiseExc (.connectionError "timeout"))
      = (.ret (.failure "timeout"), 1)
    ∧ (∀ inner, (AudioProcessor.transcribe inner).2 = 1)
    ∧ (∀ inner, (AudioProcessor.synthesize inner).2 = 1) := by
  refine ⟨rfl, rfl, fun inner => ?_, fun inner => ?_⟩
  · unfold AudioProcessor.transcribe backoffOnException transcribeBody
    cases inner 0 <;> simp
  · unfold AudioProcessor.synthesize backoffOnException synthesizeBody
    cases inner 0 <;> simp

/-! ## Audio cache (`utils/audio_utils.py`)

The cache is a directory of files `{cache_key}.bin`; embedded as an
association list from key to file content plus modification time.
`save_to_cache` writes the file (the write succeeding, per the property
under test, which conditions on a successful save); `get_cached_audio`
returns `None` for a missing file, deletes the file and returns `None` when
`time.time() - mtime > CACHE_TTL`, and otherwise returns the bytes. -/

def CACHE_TTL : Nat := 86400 * 7

structure CacheFile where
  content : List Nat
  mtime : Nat
deriving DecidableEq, Repr

abbrev CacheDir := List (String × CacheFile)

def findFile : CacheDir → String → Option CacheFile
  | [], _ => none
  | (k, f) :: rest, key => if k = key then some f else findFile rest key

def writeFile : CacheDir → String → CacheFile → CacheDir
  | [], key, f => [(key, f)]
  | (k, g) :: rest, key, f =>
    if k = key then (key, f) :: rest else (k, g) :: writeFile rest key f

def removeFile : CacheDir → String → CacheDir
  | [], _ => []
  | (k, f) :: rest, key =>
    if k = key then rest else (k, f) :: removeFile rest key

/-- Function `save_to_cache(cache_key, audio_data)`: writes `{cache_key}.bin`, whose
modification time becomes the current time; returns `True` on success. -/
def save_to_cache (d : CacheDir) (cache_key : String) (audio_data : List Nat)
    (now : Nat) : Bool × CacheDir :=
  (true, writeFile d cache_key ⟨audio_data, now⟩)

/-- Function `get_cached_audio(cache_key)`: `None` when the file does not exist;
when `time.time() - mtime > CACHE_TTL` the entry is deleted (`os.remove`)
and `None` is returned; otherwise the file bytes are returned. -/
def get_cached_audio (d : CacheDir) (cache_key : String) (now : Nat) :
    Option (List Nat) × CacheDir :=
  match findFile d cache_key with
  | none => (none, d)
  | some f =>
    if CACHE_TTL < now - f.mtime then (none, removeFile d cache_key)
    else (some f.content, d)

theorem findFile_writeFile_self (d : CacheDir) (key : String) (f : CacheFile) :
    findFile (writeFile d key f) key = some f := by
  induction d with
  | nil => simp [writeFile, findFile]
  | cons kg rest ih =>
    obtain ⟨k, g⟩ := kg
    by_cases hk : k = key <;> simp [writeFile, findFile, hk, ih]

/-- Claim C5: after `save_to_cache(key, bytes)` succeeds at time `t`, a
`get_cached_audio(key)` read at time `now` returns exactly those bytes while
the file age `now - t` is within the 7-day `CACHE_TTL` (leaving the cache
untouched), and once the age exceeds the TTL it returns `None` and deletes
the expired entry on that very read. -/
theorem cache_ttl_round_trip (d : CacheDir) (key : String) (bytes : List Nat)
    (t now : Nat) :
    ((save_to_cache d key bytes t).1 = true)
    ∧ (now - t ≤ CACHE_TTL →
        get_cached_audio (save_to_cache d key bytes t).2 key now
          = (some bytes, (save_to_cache d key bytes t).2))
    ∧ (CACHE_TTL < now - t →
        get_cached_audio (save_to_cache d key bytes t).2 key now
          = (none, removeFile (save_to_cache d key bytes t).2 key)) := by
  refine ⟨rfl, fun hle => ?_, fun hgt => ?_⟩
  · simp [get_cached_audio, save_to_cache, findFile_writeFile_self,
      Nat.not_lt.mpr hle]
  · simp [get_cached_audio, save_to_cache, findFile_writeFile_self, hgt]

theorem cache_ttl_round_trip_witness :
    get_cached_audio (save_to_cache [] "key1" [1, 2, 3] 10).2 "key1" 20
      = (some [1, 2, 3], (save_to_cache [] "key1" [1, 2, 3] 10).2)
    ∧ get_cached_audio (save_to_cache [] "key1" [1, 2, 3] 10).2 "key1"
        (10 + CACHE_TTL + 1)
      = (none, removeFile (save_to_cache [] "key1" [1, 2, 3] 10).2 "key1") :=
  ⟨(cache_ttl_round_trip [] "key1" [1, 2, 3] 10 20).2.1 (by decide),
   (cache_ttl_round_trip [] "key1" [1, 2, 3] 10 (10 + CACHE_TTL + 1)).2.2
     (by decide)⟩

/-! ## Engine base class (`engine/engineBase.py`)

`BaseEngine.__init__` stores the config, then iterates `self.checkKeys()`
and raises `KeyError(f"[{self.__class__.__name__}] 配置中缺少必要项: {key}")`
at the first key not present in the config, and only after the whole loop
passes calls `self.setup()` (which is where subclasses create network
clients and may themselves raise).  A subclass is embedded as its class name
and required-key list; the configuration as the list of keys it defines
(values are irrelevant to the membership test); `setup` as its outcome. -/

structure EngineClass where
  className : String
  checkKeys : List String

/-- The first key of `checkKeys` for which `key not in self.cfg` holds —
the key whose absence the `for` loop reports. -/
def firstMissingKey (keys : List String) (cfgKeys : List String) :
    Option String :=
  keys.find? fun k => !(cfgKeys.contains k)

/-- Outcome of `BaseEngine.__init__`: either the `KeyError` raised by the
validation loop (before `setup` ran), or the fact that `setup()` was
reached, with whatever `setup` itself did. -/
inductive InitOutcome where
  | configError (msg : String)
  | setupCalled (r : Except String Unit)
deriving Repr

/-- Constructor `BaseEngine.__init__(config)`. -/
def BaseEngine.init (cls : EngineClass) (cfgKeys : List String)
    (setup : Except String Unit) : InitOutcome :=
  match firstMissingKey cls.checkKeys cfgKeys with
  | some key =>
    .configError ("[" ++ cls.className ++ "] 配置中缺少必要项: " ++ key)
  | none => .setupCalled setup

/-- Claim C6: when some required key is absent, `BaseEngine.__init__` fails
with an error naming that (first) missing key and the class name, and it
does so for **every** possible behaviour of `setup` — i.e. before `setup`
and hence before any network call; when every required key is present,
construction proceeds to `setup()`.  The second conjunct also certifies
that `firstMissingKey = none` is exactly "all required keys present". -/
theorem baseEngine_validates_required_keys (cls : EngineClass)
    (cfgKeys : List String) (setup : Except String Unit) :
    (∀ key, firstMissingKey cls.checkKeys cfgKeys = some key →
      key ∈ cls.checkKeys ∧ cfgKeys.contains key = false ∧
      BaseEngine.init cls cfgKeys setup
        = .configError ("[" ++ cls.className ++ "] 配置中缺少必要项: " ++ key))
    ∧ (firstMissingKey cls.checkKeys cfgKeys = none →
      (∀ key ∈ cls.checkKeys, cfgKeys.contains key = true) ∧
      BaseEngine.init cls cfgKeys setup = .setupCalled setup) := by
  constructor
  · intro key hk
    refine ⟨List.mem_of_find?_eq_some hk, ?_, ?_⟩
    · have := List.find?_some hk
      simpa using this
    · simp [BaseEngine.init, hk]
  · intro hnone
    refine ⟨fun key hmem => ?_, by simp [BaseEngine.init, hnone]⟩
    have := List.find?_eq_none.mp hnone key hmem
    simpa using this

theorem baseEngine_validates_required_keys_witness :
    BaseEngine.init ⟨"DeepgramAPI", ["NAME", "API_KEY"]⟩ ["NAME"] (.ok ())
      = .configError ("[" ++ "DeepgramAPI" ++ "] 配置中缺少必要项: " ++ "API_KEY")
    ∧ BaseEngine.init ⟨"DeepgramAPI", ["NAME", "API_KEY"]⟩ ["NAME", "API_KEY"]
        (.ok ())
      = .setupCalled (.ok ()) :=
  ⟨((baseEngine_validates_required_keys ⟨"DeepgramAPI", ["NAME", "API_KEY"]⟩
      ["NAME"] (.ok ())).1 "API_KEY" (by decide)).2.2,
   ((baseEngine_validates_required_keys ⟨"DeepgramAPI", ["NAME", "API_KEY"]⟩
      ["NAME", "API_KEY"] (.ok ())).2 (by decide)).2⟩

/-! ## Engine factory (`engine/asr/asrFactory.py`, registry `utils/registry.py`)

`ASREngines` is a `Registry` (a `dict` from engine name to constructor);
`Registry.list()` returns the registered names and `Registry.get(name)` the
constructor.  `ASRFactory.create(config)` dispatches on `config.NAME`:
registered names are constructed by calling the registered constructor on
the config (whose own exceptions propagate unchanged); an unregistered name
raises `RuntimeError(f"[ASRFactory] 请检查配置，支持的 ASR 引擎:
{supported_engines}")` where `supported_engines` is the Python list of
registered names.  Engine instances are identified abstractly by naturals. -/

abbrev Engine := Nat

structure EngineCfg where
  NAME : String
deriving DecidableEq, Repr

abbrev EngineRegistry := List (String × (EngineCfg → Except String Engine))

/-- Method `Registry.list()`: the registered names, in registration order. -/
def registryNames (reg : EngineRegistry) : List String := reg.map Prod.fst

/-- Method `Registry.get(name)`: the registered constructor, `None` if absent. -/
def registryGet : EngineRegistry → String → Option (EngineCfg → Except String Engine)
  | [], _ => none
  | (k, ctor) :: rest, name =>
    if k = name then some ctor else registryGet rest name

/-- The apostrophe character, used by Python `repr` of a string. -/
def sq : Char := Char.ofNat 39

/-- Python `str(list_of_strings)`, e.g. a two-element registry prints as
`[`, quoted first name, `, `, quoted second name, `]`. -/
def pyStrList (names : List String) : String :=
  "[" ++ String.intercalate ", "
    (names.map fun n => String.mk [sq] ++ n ++ String.mk [sq]) ++ "]"

/-- Method `ASRFactory.create(config)`. -/
def ASRFactory.create (reg : EngineRegistry) (config : EngineCfg) :
    Except String Engine :=
  if (registryNames reg).contains config.NAME then
    match registryGet reg config.NAME with
    | some ctor => ctor config
    | none => .error "unreachable: name is in Registry.list()"
  else
    .error ("[ASRFactory] 请检查配置，支持的 ASR 引擎: "
      ++ pyStrList (registryNames reg))

theorem registryGet_mem (reg : EngineRegistry) (name : String)
    (ctor : EngineCfg → Except String Engine)
    (h : registryGet reg name = some ctor) :
    (registryNames reg).contains name = true := by
  induction reg with
  | nil => simp [registryGet] at h
  | cons kv rest ih =>
    obtain ⟨k, c⟩ := kv
    by_cases hk : k = name
    · simp [registryNames, hk]
    · simp only [registryGet, if_neg hk] at h
      simp [registryNames, List.contains_cons]
      exact Or.inr (by simpa [registryNames] using ih h)

/-- Claim C7: `ASRFactory.create` run on a config whose `NAME` is not
registered raises an error whose message enumerates all currently
registered engine names; on a registered `NAME` it invokes the registered
constructor on that very config and returns its result unchanged — a
construction failure (`Except.error`) propagates as-is, never swallowed. -/
theorem asrFactory_create_dispatch (reg : EngineRegistry) (config : EngineCfg) :
    ((registryNames reg).contains config.NAME = false →
      ASRFactory.create reg config
        = .error ("[ASRFactory] 请检查配置，支持的 ASR 引擎: "
            ++ pyStrList (registryNames reg)))
    ∧ (∀ ctor, registryGet reg config.NAME = some ctor →
        ASRFactory.create reg config = ctor config) := by
  constructor
  · intro habs
    unfold ASRFactory.create
    split
    · next hmem => exact absurd hmem (by simpa using habs)
    · rfl
  · intro ctor hget
    have hmem := registryGet_mem reg config.NAME ctor hget
    unfold ASRFactory.create
    split
    · next _ => rw [hget]
    · next hn => exact absurd hmem (by simpa using hn)

/-- A registry with two engines: one that constructs successfully and one
whose constructor raises. -/
def exampleRegistry : EngineRegistry :=
  [("deepgramAPI", fun _ => .ok 7),
   ("funasrLocal", fun _ => .error "初始化失败")]

theorem asrFactory_create_dispatch_witness :
    ASRFactory.create exampleRegistry ⟨"nosuch"⟩
      = .error ("[ASRFactory] 请检查配置，支持的 ASR 引擎: "
          ++ pyStrList (registryNames exampleRegistry))
    ∧ ASRFactory.create exampleRegistry ⟨"deepgramAPI"⟩ = .ok 7
    ∧ ASRFactory.create exampleRegistry ⟨"funasrLocal"⟩ = .error "初始化失败" :=
  ⟨(asrFactory_create_dispatch exampleRegistry ⟨"nosuch"⟩).1 (by decide),
   (asrFactory_create_dispatch exampleRegistry ⟨"deepgramAPI"⟩).2
     (fun _ => .ok 7) rfl,
   (asrFactory_create_dispatch exampleRegistry ⟨"funasrLocal"⟩).2
     (fun _ => .error "初始化失败") rfl⟩

/-! ## Engine pool (`engine/enginePool.py`)

`EnginePool.getEngine(engine_type, engine_name)` first checks its cache
(`self.engines[engine_type]`) outside any `try`; on a miss it enters a
`try` block that checks for the engine configuration file, loads it
(`config.load_yaml`, which may raise) and constructs through the matching
factory (which may raise); a successful construction is cached under
`(engine_type, engine_name)`.  The `except Exception` clause turns any
raised exception into a `None` return.  The environment bundles the file
system and the factories; `construct` additionally receives a running
construction counter so that distinct constructions are observable, and the
counter in `PoolState` counts factory invocations. -/

inductive EngineType where
  | ASR
  | LLM
  | TTS
deriving DecidableEq, Repr

structure PoolEnv where
  fileExists : EngineType → String → Bool
  loadYaml : EngineType → String → Except String EngineCfg
  construct : EngineType → EngineCfg → Nat → Except String Engine

structure PoolState where
  engines : List ((EngineType × String) × Engine)
  ctorCount : Nat
deriving DecidableEq, Repr

/-- Cache lookup `engine_name in self.engines[engine_type]`. -/
def findEngine : List ((EngineType × String) × Engine) →
    EngineType × String → Option Engine
  | [], _ => none
  | (k, e) :: rest, key => if k = key then some e else findEngine rest key

/-- The `try` block of `getEngine` (entered on a cache miss): file-existence
check (a missing file is a normal `return None`), yaml load, factory
construction and caching.  `Except.error` is a raised exception escaping
the block, carrying the pool state at the raise point. -/
def getEngineTry (env : PoolEnv) (st : PoolState) (ty : EngineType)
    (name : String) : Except (String × PoolState) (Option Engine × PoolState) :=
  if env.fileExists ty name then
    match env.loadYaml ty name with
    | .error e => .error (e, st)
    | .ok cfg =>
      match env.construct ty cfg st.ctorCount with
      | .error e => .error (e, { st with ctorCount := st.ctorCount + 1 })
      | .ok eng =>
        .ok (some eng, ⟨((ty, name), eng) :: st.engines, st.ctorCount + 1⟩)
  else .ok (none, st)

/-- Method `EnginePool.getEngine`: cache hit short-circuits; otherwise the `try`
block runs and its `except Exception` handler converts a raised exception
into a `None` return. -/
def getEngine (env : PoolEnv) (st : PoolState) (ty : EngineType)
    (name : String) : Option Engine × PoolState :=
  match findEngine st.engines (ty, name) with
  | some e => (some e, st)
  | none =>
    match getEngineTry env st ty name with
    | .ok r => r
    | .error es => (none, es.2)

/-- A sequence of further `getEngine` calls (arbitrary keys), threading the
pool state. -/
def runCalls (env : PoolEnv) : PoolState → List (EngineType × String) → PoolState
  | st, [] => st
  | st, c :: rest => runCalls env (getEngine env st c.1 c.2).2 rest

theorem findEngine_cons_ne (l : List ((EngineType × String) × Engine))
    (k key : EngineType × String) (eng : Engine) (hne : k ≠ key) :
    findEngine ((k, eng) :: l) key = findEngine l key := by
  simp [findEngine, hne]

theorem getEngine_some_find (env : PoolEnv) (st : PoolState) (ty : EngineType)
    (name : String) (e : Engine) (st1 : PoolState)
    (h : getEngine env st ty name = (some e, st1)) :
    findEngine st1.engines (ty, name) = some e := by
  unfold getEngine at h
  cases hf : findEngine st.engines (ty, name) with
  | some e0 =>
    rw [hf] at h
    simp only [Prod.mk.injEq, Option.some.injEq] at h
    obtain ⟨h1, h2⟩ := h
    subst h2
    rw [hf, h1]
  | none =>
    rw [hf] at h
    cases ht : getEngineTry env st ty name with
    | error es => rw [ht] at h; simp at h
    | ok r =>
      rw [ht] at h
      simp only [] at h
      unfold getEngineTry at ht
      split at ht
      · cases hl : env.loadYaml ty name with
        | error es2 => rw [hl] at ht; simp at ht
        | ok cfg =>
          rw [hl] at ht
          dsimp only at ht
          cases hc : env.construct ty cfg st.ctorCount with
          | error e2 => rw [hc] at ht; simp at ht
          | ok eng =>
            rw [hc] at ht
            simp only [Except.ok.injEq] at ht
            subst ht
            simp only [Prod.mk.injEq, Option.some.injEq] at h
            obtain ⟨h1, h2⟩ := h
            subst h2
            simp [findEngine, h1]
      · simp only [Except.ok.injEq] at ht
        subst ht
        simp at h

theorem findEngine_preserved (env : PoolEnv) (st : PoolState)
    (ty2 : EngineType) (name2 : String) (ty : EngineType) (name : String)
    (e : Engine) (h : findEngine st.engines (ty, name) = some e) :
    findEngine ((getEngine env st ty2 name2).2).engines (ty, name) = some e := by
  unfold getEngine
  cases hf : findEngine st.engines (ty2, name2) with
  | some e0 => exact h
  | none =>
    cases ht : getEngineTry env st ty2 name2 with
    | error es =>
      unfold getEngineTry at ht
      split at ht
      · cases hl : env.loadYaml ty2 name2 with
        | error es2 =>
          rw [hl] at ht
          simp only [Except.error.injEq] at ht
          subst ht
          exact h
        | ok cfg =>
          rw [hl] at ht
          dsimp only at ht
          cases hc : env.construct ty2 cfg st.ctorCount with
          | error e2 =>
            rw [hc] at ht
            simp only [Except.error.injEq] at ht
            subst ht
            exact h
          | ok eng => rw [hc] at ht; simp at ht
      · simp at ht
    | ok r =>
      unfold getEngineTry at ht
      split at ht
      · cases hl : env.loadYaml ty2 name2 with
        | error es2 => rw [hl] at ht; simp at ht
        | ok cfg =>
          rw [hl] at ht
          dsimp only at ht
          cases hc : env.construct ty2 cfg st.ctorCount with
          | error e2 => rw [hc] at ht; simp at ht
          | ok eng =>
            rw [hc] at ht
            simp only [Except.ok.injEq] at ht
            subst ht
            have hne : (ty2, name2) ≠ (ty, name) := by
              intro hEq
              rw [hEq, h] at hf
              cases hf
            simpa [findEngine_cons_ne _ _ _ _ hne] using h
      · simp only [Except.ok.injEq] at ht
        subst ht
        exact h

theorem runCalls_preserves_find (env : PoolEnv) (ty : EngineType)
    (name : String) (e : Engine) :
    ∀ (calls : List (EngineType × String)) (st : PoolState),
      findEngine st.engines (ty, name) = some e →
      findEngine (runCalls env st calls).engines (ty, name) = some e := by
  intro calls
  induction calls with
  | nil => exact fun st h => h
  | cons c rest ih =>
    intro st h
    exact ih _ (findEngine_preserved env st c.1 c.2 ty name e h)

/-- Claim C8: once `getEngine(engine_type, engine_name)` has returned an
engine instance, every later `getEngine` call with the same key — after any
interleaved sequence of `getEngine` calls for arbitrary other keys —
returns that very same instance and leaves the pool state completely
unchanged: no configuration load and no second construction (the
construction counter does not move) ever happens for that key again. -/
theorem enginePool_constructs_once (env : PoolEnv) (st st1 : PoolState)
    (ty : EngineType) (name : String) (e : Engine)
    (h : getEngine env st ty name = (some e, st1))
    (calls : List (EngineType × String)) :
    getEngine env (runCalls env st1 calls) ty name
      = (some e, runCalls env st1 calls) := by
  have hfind := getEngine_some_find env st ty name e st1 h
  have hfind2 := runCalls_preserves_find env ty name e calls st1 hfind
  unfold getEngine
  rw [hfind2]

/-- An environment in which every configuration file exists, loads cleanly,
and construction always succeeds, returning the construction serial as the
engine instance. -/
def happyPoolEnv : PoolEnv :=
  { fileExists := fun _ _ => true
    loadYaml := fun _ _ => .ok ⟨"deepgramAPI"⟩
    construct := fun _ _ n => .ok n }

theorem enginePool_constructs_once_witness :
    getEngine happyPoolEnv
        (runCalls happyPoolEnv ⟨[((EngineType.ASR, "deepgramAPI"), 0)], 1⟩
          [(EngineType.LLM, "minimaxAPI")])
        EngineType.ASR "deepgramAPI"
      = (some 0,
         runCalls happyPoolEnv ⟨[((EngineType.ASR, "deepgramAPI"), 0)], 1⟩
           [(EngineType.LLM, "minimaxAPI")]) :=
  enginePool_constructs_once happyPoolEnv ⟨[], 0⟩
    ⟨[((EngineType.ASR, "deepgramAPI"), 0)], 1⟩ EngineType.ASR "deepgramAPI" 0
    rfl [(EngineType.LLM, "minimaxAPI")]

/-- Claim C10: on a cache miss, `getEngine` surfaces every failure as a
`None` result rather than an exception: a missing configuration file yields
`(none, unchanged state)`; a configuration load that raises is caught and
yields `(none, unchanged state)`; a factory construction that raises is
caught and yields `none` (the construction attempt counter having moved) —
in contrast to the factory itself, whose construction failures propagate. -/
theorem enginePool_failure_returns_none (env : PoolEnv) (st : PoolState)
    (ty : EngineType) (name : String)
    (hmiss : findEngine st.engines (ty, name) = none) :
    (env.fileExists ty name = false → getEngine env st ty name = (none, st))
    ∧ (∀ e, env.fileExists ty name = true → env.loadYaml ty name = .error e →
        getEngine env st ty name = (none, st))
    ∧ (∀ cfg e, env.fileExists ty name = true →
        env.loadYaml ty name = .ok cfg →
        env.construct ty cfg st.ctorCount = .error e →
        getEngine env st ty name
          = (none, { st with ctorCount := st.ctorCount + 1 })) := by
  refine ⟨fun hfe => ?_, fun e hfe hl => ?_, fun cfg e hfe hl hc => ?_⟩
  · simp [getEngine, getEngineTry, hmiss, hfe]
  · simp [getEngine, getEngineTry, hmiss, hfe, hl]
  · simp [getEngine, getEngineTry, hmiss, hfe, hl, hc]

theorem enginePool_failure_returns_none_witness :
    getEngine ⟨fun _ _ => false, fun _ _ => .error "无配置",
        fun _ _ n => .ok n⟩ ⟨[], 0⟩ EngineType.TTS "edgeTTS"
      = (none, ⟨[], 0⟩)
    ∧ getEngine ⟨fun _ _ => true, fun _ _ => .error "yaml解析失败",
        fun _ _ n => .ok n⟩ ⟨[], 0⟩ EngineType.TTS "edgeTTS"
      = (none, ⟨[], 0⟩)
    ∧ getEngine ⟨fun _ _ => true, fun _ _ => .ok ⟨"edgeTTS"⟩,
        fun _ _ _ => .error "缺少API_KEY"⟩ ⟨[], 0⟩ EngineType.TTS "edgeTTS"
      = (none, ⟨[], 1⟩) :=
  ⟨(enginePool_failure_returns_none _ ⟨[], 0⟩ EngineType.TTS "edgeTTS" rfl).1
      rfl,
   (enginePool_failure_returns_none _ ⟨[], 0⟩ EngineType.TTS "edgeTTS" rfl).2.1
      "yaml解析失败" rfl rfl,
   (enginePool_failure_returns_none _ ⟨[], 0⟩ EngineType.TTS "edgeTTS" rfl).2.2
      ⟨"edgeTTS"⟩ "缺少API_KEY" rfl rfl rfl⟩

end DigitalHuman
